/-
Verification of vid2cleantxt's chunked transcription pipeline
(src/vid2cleantxt/transcribe.py) via a shallow embedding in Lean 4.

Conventions of the embedding:
* Opaque external capabilities (the acoustic model call, the tokenizer's
  attention mask, the spell-correction pipeline, keyword extraction, the
  text-normalization pass `corr`) are passed in as function parameters
  ("stubs"), matching the spec's treatment of them as opaque collaborators.
* Python exceptions become `Except PyError`; a raised exception propagating
  out of a loop is modelled by the `Except` short-circuit.
* Filesystem effects relevant to the claims (existence of the scratch
  audio-chunk directory, saves of the keyword database) are threaded
  explicitly through result records.
* Python floats arising from `/` are modelled as exact rationals (`Rat`);
  the quantities compared by the claims (1.5 vs 65/60) are far apart, so
  rounding is immaterial.
-/
import Mathlib

namespace Vid2CleanTxt

/-- The Python errors relevant to the claims. -/
inductive PyError where
  | nameError       -- `NameError` (the `laod_whisper_modules` typo)
  | unboundLocal    -- `UnboundLocalError` (`PL_out` on the empty loop)
  | decodeError     -- acoustic model call failed on a chunk
  | mediaReadError  -- segmenter could not decode the source
  | initError       -- spell-checker initialization failure
  deriving DecidableEq, Repr

/-- Boolean view of an `Except` being on the error branch. -/
def exceptIsError : Except ε α → Bool
  | .error _ => true
  | .ok _ => false

/-! ### Model identification (transcribe.py lines 596, 144-181) -/

/-- Whether `pat` is an initial segment of `s`. -/
def charsLeading : List Char → List Char → Bool
  | [], _ => true
  | _ :: _, [] => false
  | a :: as, b :: bs => a == b && charsLeading as bs

/-- Embedding of Python's `pat in s` substring test: `pat` occurs as a
contiguous segment of `s`. -/
def pyContains (pat : List Char) : List Char → Bool
  | [] => charsLeading pat []
  | b :: bs => charsLeading pat (b :: bs) || pyContains pat bs

/-- Embedding of Python's `s.lower()` (ASCII range, which covers the
model-identifier strings at issue). -/
def pyLower (s : String) : List Char :=
  s.toList.map Char.toLower

/-- `_is_whisper = "whisper" in model_id.lower()` (transcribe.py line 596). -/
def isWhisper (model_id : String) : Bool :=
  pyContains "whisper".toList (pyLower model_id)

/-- The dynamic class of a loaded CTC model object, as discriminated by the
`isinstance` checks in `wav2vec2_islarge` (transcribe.py lines 164-175). -/
inductive ModelKind where
  | wav2vec2   -- `Wav2Vec2ForCTC`
  | hubert     -- `HubertForCTC`
  | wavlm      -- `WavLMForCTC` (not a `Wav2Vec2ForCTC`: warning branch)
  | other      -- any other object: warning branch
  deriving DecidableEq, Repr

/-- A loaded model object: its class and `num_parameters()`. -/
structure ModelObj where
  kind : ModelKind
  num_parameters : Nat
  deriving DecidableEq, Repr

/-- `approx_sizes["base"]` (transcribe.py line 161). -/
def approx_size_base : Nat := 94396320

/-- `approx_sizes["large"]` (transcribe.py line 162). -/
def approx_size_large : Nat := 315471520

/-- `dist_from_base = abs(np_proposed - approx_sizes.get("base"))`. -/
def dist_from_base (m : ModelObj) : Nat :=
  ((m.num_parameters : Int) - (approx_size_base : Int)).natAbs

/-- `dist_from_large = abs(np_proposed - approx_sizes.get("large"))`. -/
def dist_from_large (m : ModelObj) : Nat :=
  ((m.num_parameters : Int) - (approx_size_large : Int)).natAbs

/-- Embedding of `wav2vec2_islarge` (transcribe.py lines 144-181):
`HubertForCTC` returns `False`; any non-`Wav2Vec2ForCTC` returns `False`
(warning branch); otherwise `True` iff strictly closer to the large
reference size than to the base one. -/
def wav2vec2_islarge (m : ModelObj) : Bool :=
  if m.kind = ModelKind.hubert then false
  else if m.kind ≠ ModelKind.wav2vec2 then false
  else decide (dist_from_large m < dist_from_base m)

/-- The attention-mask argument handed to the model on one chunk
(transcribe.py lines 407-416): `inputs.attention_mask` when `use_attn`,
else `None`, and the call site selects the masked call accordingly. -/
def maskArgAtChunk (use_attn : Bool) (tokMask : String → Nat) (chunk : String) : Option Nat :=
  if use_attn then some (tokMask chunk) else none

/-! ### Device-monitor cadence (transcribe.py lines 390-400 and 271-282) -/

/-- `GPU_update_incr = math.ceil(len(chunk_directory) / 2) if len(chunk_directory) > 1 else 1`. -/
def GPU_update_incr (n : Nat) : Nat :=
  if n > 1 then (n + 1) / 2 else 1

/-- The per-iteration checkpoint guard
`(i % GPU_update_incr == 0) and (GPU_update_incr != 0)`:
whether `check_runhardware()` + `gc.collect()` fire on chunk `i`
of an `n`-chunk loop. -/
def checkpointFires (n i : Nat) : Bool :=
  (i % GPU_update_incr n == 0) && (GPU_update_incr n != 0)

/-- The set of chunk indices at which the device-monitor checkpoint fires. -/
def checkpointIndices (n : Nat) : List Nat :=
  (List.range n).filter (checkpointFires n)

/-! ### The metadata row (transcribe.py lines 437-448 and 311-322) -/

/-- One row of `create_metadata_df()` as filled by
`md_df.loc[len(md_df), :] = [...]`: identical column list in the wav2vec2
and whisper variants. -/
structure MetadataRow where
  clip_name : String
  chunk_count : Nat
  chunk_dur : Nat
  duration_min : Rat      -- `(len(chunk_directory) * chunk_dur) / 60`
  timestamp : String      -- `get_timestamp()`
  full_text : String
  char_count : Nat        -- `len(full_text)`
  word_count : Nat        -- `len(full_text.split(" "))`
  deriving DecidableEq, Repr

/-- Builds the metadata row exactly as the assignment at
transcribe.py lines 439-448 does. -/
def mkMetadataRow (clip_name : String) (chunk_count chunk_dur : Nat)
    (ts : String) (full_text : String) : MetadataRow :=
  { clip_name := clip_name
    chunk_count := chunk_count
    chunk_dur := chunk_dur
    duration_min := ((chunk_count * chunk_dur : Nat) : Rat) / 60
    timestamp := ts
    full_text := full_text
    char_count := full_text.length
    word_count := (full_text.splitOn " ").length }

/-- `transc_res = {"audio_transcription": full_transc, "metadata": md_df}`,
plus the transcript text persisted by `save_transc_results`. -/
structure TranscRes where
  audio_transcription : List String
  metadata : MetadataRow
  saved_text : String     -- `ttext=full_text` written to `{header}_full.txt`
  deriving Repr

/-- Outcome of one file's inference loop: whether the scratch audio-chunk
directory (`ac_storedir`) still exists on the filesystem when the call
returns or raises, and the returned value / propagated exception. -/
structure TranscOutcome where
  scratchExists : Bool
  result : Except PyError TranscRes
  deriving Repr

/-! ### The inference loops (transcribe.py lines 232-343 and 346-469) -/

/-- The chunk loop of `transcribe_video_wav2vec` (lines 394-431): for each
chunk, the tokenizer produces input values and an attention mask (opaque:
`tokMask`), the model is called with the mask only when `use_attn`
(lines 407-416), and the argmax-decoded text (opaque: `modelCall`) is
appended as `f"{this_transc}\n"`. A raised `DecodeError` propagates. -/
def runChunksW2V (tokMask : String → Nat)
    (modelCall : String → Option Nat → Except PyError String)
    (use_attn : Bool) : List String → Except PyError (List String)
  | [] => .ok []
  | c :: cs =>
    match modelCall c (maskArgAtChunk use_attn tokMask c) with
    | .error e => .error e
    | .ok t =>
      match runChunksW2V tokMask modelCall use_attn cs with
      | .error e => .error e
      | .ok fs => .ok ((t ++ "\n") :: fs)

/-- The chunk loop of `transcribe_video_whisper` (lines 276-305): per chunk,
feature extraction + `model.generate` + `batch_decode` are one opaque
`generate` call; the text is appended as `f"{this_transc}\n"`. -/
def runChunksWhisper (generate : String → Except PyError String) :
    List String → Except PyError (List String)
  | [] => .ok []
  | c :: cs =>
    match generate c with
    | .error e => .error e
    | .ok t =>
      match runChunksWhisper generate cs with
      | .error e => .error e
      | .ok fs => .ok ((t ++ "\n") :: fs)

/-- Everything after a chunk loop succeeds, shared verbatim by both
variants (lines 437-460 resp. 311-334): `full_text = corr(" ".join(full_transc))`,
the metadata row, `save_transc_results`, then
`shutil.rmtree(ac_storedir, ignore_errors=True)`. -/
def finishTranscription (clip_name : String) (chunk_count chunk_dur : Nat)
    (ts : String) (corr : String → String) (full_transc : List String) :
    TranscOutcome :=
  let full_text := corr (String.intercalate " " full_transc)
  let md := mkMetadataRow clip_name chunk_count chunk_dur ts full_text
  -- save_transc_results writes full_text + md, then rmtree removes scratch
  { scratchExists := false
    result := .ok
      { audio_transcription := full_transc
        metadata := md
        saved_text := full_text } }

/-- Embedding of `transcribe_video_wav2vec` (transcribe.py lines 346-469).
`chunks` is the `chunk_directory` returned by the segmenter
(`prep_transc_pydub`, an external collaborator); `ts` is the value of
`get_timestamp()` when the metadata row is built; `corr` is the opaque
normalization pass. `create_folder(ac_storedir)` (line 378) makes the
scratch directory exist; `shutil.rmtree` (line 460) runs only after the
loop completes, so on a propagated decode exception the scratch directory
is still present. -/
def transcribe_video_wav2vec (ts_model : ModelObj) (tokMask : String → Nat)
    (modelCall : String → Option Nat → Except PyError String)
    (chunks : List String) (clip_name : String) (chunk_dur : Nat)
    (ts : String) (corr : String → String) : TranscOutcome :=
  let use_attn := wav2vec2_islarge ts_model
  match runChunksW2V tokMask modelCall use_attn chunks with
  | .error e => { scratchExists := true, result := .error e }
  | .ok full_transc =>
      finishTranscription clip_name chunks.length chunk_dur ts corr full_transc

/-- Embedding of `transcribe_video_whisper` (transcribe.py lines 232-343),
same shape: scratch directory created before the loop, removed only on the
post-loop line 334. -/
def transcribe_video_whisper (generate : String → Except PyError String)
    (chunks : List String) (clip_name : String) (chunk_dur : Nat)
    (ts : String) (corr : String → String) : TranscOutcome :=
  match runChunksWhisper generate chunks with
  | .error e => { scratchExists := true, result := .error e }
  | .ok full_transc =>
      finishTranscription clip_name chunks.length chunk_dur ts corr full_transc

/-! ### Spell-correction chain (transcribe.py lines 610-626, 665-673) -/

/-- Which spell-checker backs the handle. -/
inductive Checker where
  | neuspell   -- advanced corrector, `init_neuspell()`
  | symspell   -- basic corrector, `init_symspell()`
  deriving DecidableEq, Repr

/-- Embedding of the checker-acquisition block of `transcribe_dir`
(lines 610-626). `neu`/`sym` are the outcomes of `init_neuspell()` /
`init_symspell()` (external collaborators, passed as stubs). Returns the
checker together with the final value of `base_spelling`; an `Except.error`
models an exception propagating out of the block. -/
def acquireChecker (basic_spelling : Bool)
    (neu sym : Except PyError Checker) : Except PyError (Checker × Bool) :=
  if basic_spelling then
    match sym with
    | .error e => .error e
    | .ok c => .ok (c, true)
  else
    match neu with
    | .ok c => .ok (c, false)
    | .error _ =>
      -- `except Exception`: log, set `base_spelling = True`, init symspell
      match sym with
      | .error e => .error e
      | .ok c => .ok (c, true)

/-- `spell_correct_method="symspell" if base_spelling else "neuspell"`
(transcribe.py line 671). -/
def spellMethodOf (base_spelling : Bool) : String :=
  if base_spelling then "symspell" else "neuspell"

/-- The spell-correct method handed to `spellcorrect_pipeline` for each
transcript file: `postprocess_transc`'s loop (lines 524-536) passes its
single `spell_correct_method` argument unchanged on every iteration. -/
def postprocessMethods (method : String) (txt_files : List String) :
    List String :=
  txt_files.map (fun _ => method)

/-! ### Postprocess reducer (transcribe.py lines 472-561) -/

/-- The dictionary returned by `spellcorrect_pipeline` (external
collaborator), restricted to the keys `postprocess_transc` reads. -/
structure PLOut where
  spell_corrected_dir : String
  sc_filename : String
  SBD_dir : String
  deriving DecidableEq, Repr

/-- The result of `quick_keys` on one transcript: a two-column keyword
table (keyword column and score column), i.e. one column-set of the
keyword database. -/
structure KwTable where
  keywords : List String
  scores : List Rat
  deriving DecidableEq, Repr

/-- Outcome of `postprocess_transc`: the column-sets of `kw_all_vids` in
concatenation order, how many times the keyword database was written
(`kw_all_vids.to_csv`, line 556), and the returned value / exception. -/
structure PostOutcome where
  kwdb : List KwTable
  kwdbSaves : Nat
  result : Except PyError String
  deriving Repr

/-- The per-transcript loop of `postprocess_transc` (lines 524-552): each
file goes through `spellcorrect_pipeline` (opaque `pipeline`), then
`quick_keys` with the fixed arguments `num_kw=25, max_ngrams=3`
(opaque `qk`, taking `filepath`, `filename`, `num_kw`, `max_ngrams`); the
resulting tables are concatenated column-wise (`pd.concat(..., axis=1)`) in
iteration order. Also returns the final value of the loop variable
`PL_out`, `none` when the loop body never ran. -/
def postprocessLoop (pipeline : String → PLOut)
    (qk : String → String → Nat → Nat → KwTable) :
    List String → List KwTable × Option PLOut
  | [] => ([], none)
  | f :: fs =>
    let pl := pipeline f
    let t := qk pl.spell_corrected_dir pl.sc_filename 25 3
    let (rest, lastPL) := postprocessLoop pipeline qk fs
    (t :: rest, (lastPL <|> some pl))

/-- Embedding of `postprocess_transc` (transcribe.py lines 472-561), with
the checker already resolved by the caller. After the loop the keyword
database is saved exactly once (line 556); then `return PL_out["SBD_dir"]`
(line 561) reads the loop variable `PL_out`, which is unbound when
`txt_files` was empty — Python raises `UnboundLocalError` there. -/
def postprocess_transc (pipeline : String → PLOut)
    (qk : String → String → Nat → Nat → KwTable)
    (txt_files : List String) : PostOutcome :=
  let (cols, lastPL) := postprocessLoop pipeline qk txt_files
  { kwdb := cols
    kwdbSaves := 1
    result :=
      match lastPL with
      | some pl => .ok pl.SBD_dir
      | none => .error .unboundLocal }

/-! ### Batch driver (transcribe.py lines 564-678) -/

/-- Outcome of a `transcribe_dir` run: the files whose per-file inference
loop completed (in processing order), the keyword database content and its
save count, and the returned value / propagated exception. -/
structure RunOutcome where
  processed : List String
  kwdb : List KwTable
  kwdbSaves : Nat
  result : Except PyError String
  deriving Repr

/-- The per-file loop of `transcribe_dir` (lines 636-657): each approved
file runs through its inference loop (`tf`, the already-configured
`transcribe_video_*` call); the loop body has no exception handler, so an
exception raised for one file propagates and the remaining files are never
visited. Returns the completed files in order plus the loop's outcome. -/
def transcribeDirFileLoop (tf : String → TranscOutcome) :
    List String → List String × Except PyError Unit
  | [] => ([], .ok ())
  | f :: fs =>
    match (tf f).result with
    | .error e => ([], .error e)
    | .ok _ =>
      let (ps, r) := transcribeDirFileLoop tf fs
      (f :: ps, r)

/-- Embedding of `transcribe_dir` (transcribe.py lines 564-678).
Order of effects follows the source: `_is_whisper = "whisper" in
model_id.lower()` (line 596); model loading (line 604) — on the whisper
branch this calls the undefined name `laod_whisper_modules`, raising
`NameError` before anything else happens (the defined function is
`load_whisper_modules`); then checker acquisition (lines 610-626); then
the per-file loop; then `postprocess_transc` on the transcripts the loop
produced (one per completed file), with the method derived from the final
`base_spelling` (line 671). -/
def transcribe_dir (model_id : String) (basic_spelling : Bool)
    (neu sym : Except PyError Checker) (tf : String → TranscOutcome)
    (files : List String) (pipeline : String → PLOut)
    (qk : String → String → Nat → Nat → KwTable) : RunOutcome :=
  if isWhisper model_id then
    { processed := [], kwdb := [], kwdbSaves := 0, result := .error .nameError }
  else
    match acquireChecker basic_spelling neu sym with
    | .error e =>
      { processed := [], kwdb := [], kwdbSaves := 0, result := .error e }
    | .ok (_, base) =>
      match transcribeDirFileLoop tf files with
      | (ps, .error e) =>
        { processed := ps, kwdb := [], kwdbSaves := 0, result := .error e }
      | (ps, .ok _) =>
        let post := postprocess_transc pipeline qk ps
        -- `spell_correct_method` for the whole run (line 671):
        let _method := spellMethodOf base
        { processed := ps
          kwdb := post.kwdb
          kwdbSaves := post.kwdbSaves
          result := post.result }

/-! ### Concrete stubs used by counterexamples and witnesses -/

/-- A model call that always raises (`DecodeError` on every chunk). -/
def failingModelCall : String → Option Nat → Except PyError String :=
  fun _ _ => .error PyError.decodeError

/-- A generative model call that always raises. -/
def failingGenerate : String → Except PyError String :=
  fun _ => .error PyError.decodeError

/-- A deterministic decode stub: returns the chunk's name as its text. -/
def okModelCall : String → Option Nat → Except PyError String :=
  fun c _ => .ok c

/-- A deterministic generative decode stub. -/
def okGenerate : String → Except PyError String :=
  fun c => .ok c

/-- A base-size `Wav2Vec2ForCTC` model object. -/
def baseModel : ModelObj := ⟨ModelKind.wav2vec2, 94396320⟩

/-- A `spellcorrect_pipeline` stub. -/
def idPipeline : String → PLOut := fun f => ⟨f, f, f⟩

/-- A `quick_keys` stub: an empty two-column table per file. -/
def emptyQk : String → String → Nat → Nat → KwTable := fun _ _ _ _ => ⟨[], []⟩

/-- A per-file inference-loop stub that raises on `bad.mp4` (leaving its
scratch directory behind) and succeeds on everything else. -/
def tfFailOnBad : String → TranscOutcome := fun f =>
  if f = "bad.mp4" then { scratchExists := true, result := .error PyError.decodeError }
  else finishTranscription f 1 30 "ts" id ["frag\n"]

/-- Projection: the metadata row of a successful inference-loop outcome. -/
def resMetadata (o : TranscOutcome) : Option MetadataRow :=
  match o.result with
  | .ok r => some r.metadata
  | .error _ => none

/-- Projection: the persisted transcript text of a successful outcome. -/
def resText (o : TranscOutcome) : Option String :=
  match o.result with
  | .ok r => some r.saved_text
  | .error _ => none

/-- A metadata row with its timestamp column blanked. -/
def rowSansTimestamp (r : MetadataRow) : MetadataRow := { r with timestamp := "" }

/-- Modelled from the spec: the Segmenter (`prep_transc_pydub`) is defined
in vid2cleantxt/audio2text_functions.py, which is not under src/; spec §8
fixes its chunk count: "the Segmenter produces `ceil(T/D)` chunks" for a
source of duration `T` seconds at chunk duration `D`. -/
def segment_chunk_count (t d : Nat) : Nat := (t + d - 1) / d

/-- The 65-second / 30-second-chunk scenario of claim C6: three chunks fed
through the wav2vec2 inference loop with a deterministic decode stub. -/
def c6run : TranscOutcome :=
  transcribe_video_wav2vec baseModel (fun _ => 0) okModelCall
    ["chunk_00.wav", "chunk_01.wav", "chunk_02.wav"] "audio65s.wav" 30 "ts" id

/-- First run of the C7 scenario (clock reads `2023-01-01_00-00-00`). -/
def c7runA : TranscOutcome :=
  transcribe_video_wav2vec baseModel (fun _ => 0) okModelCall
    ["c0.wav"] "clip.mp4" 30 "2023-01-01_00-00-00" id

/-- Second run of the C7 scenario, identical input and decode stub, later
clock (`2023-01-01_00-05-00`). -/
def c7runB : TranscOutcome :=
  transcribe_video_wav2vec baseModel (fun _ => 0) okModelCall
    ["c0.wav"] "clip.mp4" 30 "2023-01-01_00-05-00" id

/-! ### Shared helper lemmas -/

theorem gpu_incr_eq (n : Nat) (h : 1 ≤ n) : GPU_update_incr n = (n + 1) / 2 := by
  unfold GPU_update_incr
  rcases Nat.lt_or_ge 1 n with h1 | h1
  · rw [if_pos h1]
  · have hn : n = 1 := Nat.le_antisymm h1 h
    subst hn
    rfl

theorem postprocessLoop_fst (pipeline : String → PLOut)
    (qk : String → String → Nat → Nat → KwTable) :
    ∀ fs : List String,
      (postprocessLoop pipeline qk fs).1 =
        fs.map (fun f => qk (pipeline f).spell_corrected_dir (pipeline f).sc_filename 25 3)
  | [] => rfl
  | f :: fs => by
    simp only [postprocessLoop, List.map_cons]
    rw [← postprocessLoop_fst pipeline qk fs]

/-! ### Claim theorems -/

/-- C4: acquiring the spell-correction handle with the advanced corrector
preferred catches any advanced-init failure and returns a basic handle
(with the run downgraded) instead of raising; the acquisition raises only
when the basic corrector's init itself failed; and once downgraded the
basic method is the one the postprocess stage uses for every file. -/
theorem claim_C4_spell_chain (e : PyError) (c : Checker) (files : List String) :
    acquireChecker false (.error e) (.ok c) = .ok (c, true) ∧
    (∀ (b : Bool) (neu sym : Except PyError Checker) (er : PyError),
        acquireChecker b neu sym = .error er → sym = .error er) ∧
    spellMethodOf true = "symspell" ∧
    (∀ m ∈ postprocessMethods (spellMethodOf true) files, m = "symspell") := by
  refine ⟨rfl, ?_, rfl, ?_⟩
  · intro b neu sym er h
    cases b with
    | true =>
      cases sym with
      | error e2 => simpa [acquireChecker] using h
      | ok c2 => simp [acquireChecker] at h
    | false =>
      cases neu with
      | ok c2 => simp [acquireChecker] at h
      | error e2 =>
        cases sym with
        | error e3 => simpa [acquireChecker] using h
        | ok c3 => simp [acquireChecker] at h
  · intro m hm
    simp [postprocessMethods, spellMethodOf] at hm
    exact hm.2

/-- C4 witness: concrete run of the chain — the advanced init raises, the
basic init succeeds, acquisition returns the basic handle downgraded; and a
concrete erroring acquisition indeed has a failing basic init. -/
theorem claim_C4_spell_chain_witness :
    acquireChecker false (.error PyError.initError) (.ok Checker.symspell) =
      .ok (Checker.symspell, true) ∧
    (Except.error PyError.initError : Except PyError Checker) =
      .error PyError.initError :=
  ⟨(claim_C4_spell_chain PyError.initError Checker.symspell []).1,
   (claim_C4_spell_chain PyError.initError Checker.symspell []).2.1 true
      (.ok Checker.neuspell) (.error PyError.initError) PyError.initError rfl⟩

/-- C5: the CTC-argmax attention-masking flag is true exactly for a plain
`Wav2Vec2ForCTC` whose parameter count is strictly closer to the large
reference (315471520) than to the base reference (94396320); Hubert and any
non-wav2vec2 model get `false`; and with the flag false the attention-mask
argument built for the model is `None` on every chunk. -/
theorem claim_C5_attention_mask_rule (m : ModelObj) (tokMask : String → Nat) :
    (wav2vec2_islarge m = true ↔
      (m.kind = ModelKind.wav2vec2 ∧ dist_from_large m < dist_from_base m)) ∧
    (m.kind = ModelKind.hubert → wav2vec2_islarge m = false) ∧
    (m.kind ≠ ModelKind.wav2vec2 → wav2vec2_islarge m = false) ∧
    (wav2vec2_islarge m = false →
      ∀ chunk, maskArgAtChunk (wav2vec2_islarge m) tokMask chunk = none) := by
  obtain ⟨k, p⟩ := m
  refine ⟨?_, ?_, ?_, ?_⟩
  · cases k <;> simp [wav2vec2_islarge]
  · intro hk; simp_all [wav2vec2_islarge]
  · intro hk; cases k <;> simp_all [wav2vec2_islarge]
  · intro hflag chunk
    simp [maskArgAtChunk, hflag]

/-- C5 witness: a Hubert model and a wavlm model of exactly the large
reference size get `use_attn = false`, a plain wav2vec2 model of that size
gets `true`, and the false flag yields a `None` mask argument. -/
theorem claim_C5_attention_mask_rule_witness :
    wav2vec2_islarge ⟨ModelKind.hubert, 315471520⟩ = false ∧
    wav2vec2_islarge ⟨ModelKind.wav2vec2, 315471520⟩ = true ∧
    maskArgAtChunk (wav2vec2_islarge ⟨ModelKind.wavlm, 315471520⟩)
      (fun _ => 7) "chunk_00.wav" = none :=
  ⟨(claim_C5_attention_mask_rule ⟨ModelKind.hubert, 315471520⟩ (fun _ => 7)).2.1 rfl,
   (claim_C5_attention_mask_rule ⟨ModelKind.wav2vec2, 315471520⟩ (fun _ => 7)).1.mpr
      ⟨rfl, by decide⟩,
   (claim_C5_attention_mask_rule ⟨ModelKind.wavlm, 315471520⟩ (fun _ => 7)).2.2.2
      (by decide) "chunk_00.wav"⟩

/-- C8: for every chunk count `N ≥ 1`, the device-monitor cadence equals
`ceil(N/2)` (written `(N+1)/2` on naturals), is never smaller than 1, the
checkpoint fires at chunk 0 (loop start), and it fires on chunk `i` exactly
when `i` is a multiple of `ceil(N/2)`. -/
theorem claim_C8_checkpoint_cadence (n : Nat) (h : 1 ≤ n) :
    GPU_update_incr n = (n + 1) / 2 ∧
    1 ≤ GPU_update_incr n ∧
    checkpointFires n 0 = true ∧
    (∀ i, checkpointFires n i = true ↔ (n + 1) / 2 ∣ i) := by
  have hincr : GPU_update_incr n = (n + 1) / 2 := gpu_incr_eq n h
  have hpos : 0 < GPU_update_incr n := by rw [hincr]; omega
  refine ⟨hincr, hpos, ?_, ?_⟩
  · simp [checkpointFires, Nat.pos_iff_ne_zero.mp hpos]
  · intro i
    rw [checkpointFires, Bool.and_eq_true, beq_iff_eq, bne_iff_ne, hincr]
    constructor
    · rintro ⟨h1, _⟩
      exact Nat.dvd_of_mod_eq_zero h1
    · intro hdvd
      exact ⟨Nat.mod_eq_zero_of_dvd hdvd, by omega⟩

/-- C8 witness: the 5-chunk loop has cadence 3 and fires at loop start. -/
theorem claim_C8_checkpoint_cadence_witness :
    GPU_update_incr 5 = (5 + 1) / 2 ∧ checkpointFires 5 0 = true :=
  ⟨(claim_C8_checkpoint_cadence 5 (by decide)).1,
   (claim_C8_checkpoint_cadence 5 (by decide)).2.2.1⟩

/-- C10: for every model identifier containing "whisper" case-insensitively,
`transcribe_dir` hits the undefined name `laod_whisper_modules` and raises
`NameError` before transcribing any file: no file is processed, nothing is
postprocessed or saved. -/
theorem claim_C10_whisper_name_error (model_id : String)
    (h : isWhisper model_id = true) (basic : Bool)
    (neu sym : Except PyError Checker) (tf : String → TranscOutcome)
    (files : List String) (pipeline : String → PLOut)
    (qk : String → String → Nat → Nat → KwTable) :
    transcribe_dir model_id basic neu sym tf files pipeline qk =
      { processed := [], kwdb := [], kwdbSaves := 0,
        result := .error PyError.nameError } := by
  simp [transcribe_dir, h]

/-- C10 witness: the CLI default model id "openai/whisper-base.en" (and a
mixed-case variant) trip the `NameError` with no file processed. -/
theorem claim_C10_whisper_name_error_witness :
    transcribe_dir "openai/whisper-base.en" false (.ok Checker.neuspell)
      (.ok Checker.symspell) tfFailOnBad ["good.mp4"] idPipeline emptyQk =
      { processed := [], kwdb := [], kwdbSaves := 0,
        result := .error PyError.nameError } ∧
    transcribe_dir "OpenAI/Whisper-Base.EN" true (.ok Checker.neuspell)
      (.ok Checker.symspell) tfFailOnBad [] idPipeline emptyQk =
      { processed := [], kwdb := [], kwdbSaves := 0,
        result := .error PyError.nameError } :=
  ⟨claim_C10_whisper_name_error "openai/whisper-base.en" (by decide) false
      (.ok Checker.neuspell) (.ok Checker.symspell) tfFailOnBad ["good.mp4"]
      idPipeline emptyQk,
   claim_C10_whisper_name_error "OpenAI/Whisper-Base.EN" (by decide) true
      (.ok Checker.neuspell) (.ok Checker.symspell) tfFailOnBad []
      idPipeline emptyQk⟩

/-- C1 counterexample: when the model call raises on the first chunk, both
inference-loop variants propagate the exception with the scratch
audio-chunk directory still present on the filesystem — the `rmtree` line
sits after the loop, not in a `finally`, so the claimed cleanup-on-error
path does not exist. -/
theorem claim_C1_scratch_counterexample :
    (transcribe_video_wav2vec baseModel (fun _ => 0) failingModelCall
        ["chunk_00.wav"] "clip.mp4" 30 "ts" id).scratchExists = true ∧
    exceptIsError (transcribe_video_wav2vec baseModel (fun _ => 0) failingModelCall
        ["chunk_00.wav"] "clip.mp4" 30 "ts" id).result = true ∧
    (transcribe_video_whisper failingGenerate
        ["chunk_00.wav"] "clip.mp4" 30 "ts" id).scratchExists = true ∧
    exceptIsError (transcribe_video_whisper failingGenerate
        ["chunk_00.wav"] "clip.mp4" 30 "ts" id).result = true :=
  ⟨rfl, rfl, rfl, rfl⟩

/-- C1 amended: the scratch audio-chunk directory is deleted exactly on the
successful exit path — after the call, the directory exists iff the call
raised. When every chunk decodes, cleanup runs before returning; when a
decode call raises, the scratch storage is left behind. Holds for both
inference-loop variants, every decode stub and every chunk sequence. -/
theorem claim_C1_scratch_cleanup (m : ModelObj) (tokMask : String → Nat)
    (modelCall : String → Option Nat → Except PyError String)
    (generate : String → Except PyError String) (chunks : List String)
    (clip : String) (d : Nat) (ts : String) (corr : String → String) :
    (transcribe_video_wav2vec m tokMask modelCall chunks clip d ts corr).scratchExists
      = exceptIsError (transcribe_video_wav2vec m tokMask modelCall chunks clip d ts corr).result ∧
    (transcribe_video_whisper generate chunks clip d ts corr).scratchExists
      = exceptIsError (transcribe_video_whisper generate chunks clip d ts corr).result := by
  constructor
  · cases h : runChunksW2V tokMask modelCall (wav2vec2_islarge m) chunks <;>
      simp [transcribe_video_wav2vec, h, finishTranscription, exceptIsError]
  · cases h : runChunksWhisper generate chunks <;>
      simp [transcribe_video_whisper, h, finishTranscription, exceptIsError]

/-- C2 counterexample: a directory of two media files where the first
file's inference loop raises — the batch driver's file loop aborts with the
exception, the second (perfectly decodable) file is never processed, and
the run's result is the propagated error. -/
theorem claim_C2_batch_counterexample :
    (transcribe_dir "facebook/wav2vec2-base-960h" false (.ok Checker.neuspell)
        (.ok Checker.symspell) tfFailOnBad ["bad.mp4", "good.mp4"]
        idPipeline emptyQk).processed = [] ∧
    (transcribe_dir "facebook/wav2vec2-base-960h" false (.ok Checker.neuspell)
        (.ok Checker.symspell) tfFailOnBad ["bad.mp4", "good.mp4"]
        idPipeline emptyQk).result = .error PyError.decodeError ∧
    exceptIsError (tfFailOnBad "good.mp4").result = false :=
  ⟨rfl, rfl, rfl⟩

/-- C2 amended: a `MediaReadError`/`DecodeError` raised in one file's
inference loop propagates out of `transcribe_dir`'s unguarded file loop:
the failing file aborts the whole batch, the remaining files are never
visited, and the error is the run's result. -/
theorem claim_C2_batch_aborts (tf : String → TranscOutcome) (f : String)
    (fs : List String) (e : PyError) (h : (tf f).result = .error e)
    (basic : Bool) (c1 c2 : Checker) (pipeline : String → PLOut)
    (qk : String → String → Nat → Nat → KwTable) :
    transcribeDirFileLoop tf (f :: fs) = ([], .error e) ∧
    (transcribe_dir "facebook/wav2vec2-base-960h" basic (.ok c1) (.ok c2) tf
        (f :: fs) pipeline qk).processed = [] ∧
    (transcribe_dir "facebook/wav2vec2-base-960h" basic (.ok c1) (.ok c2) tf
        (f :: fs) pipeline qk).result = .error e := by
  have hw : isWhisper "facebook/wav2vec2-base-960h" = false := by decide
  have hloop : transcribeDirFileLoop tf (f :: fs) = ([], .error e) := by
    simp [transcribeDirFileLoop, h]
  refine ⟨hloop, ?_, ?_⟩ <;>
    cases basic <;> simp [transcribe_dir, hw, acquireChecker, hloop]

/-- C2 witness: the amended statement at the concrete two-file batch. -/
theorem claim_C2_batch_aborts_witness :
    transcribeDirFileLoop tfFailOnBad ["bad.mp4", "good.mp4"] =
      ([], .error PyError.decodeError) :=
  (claim_C2_batch_aborts tfFailOnBad "bad.mp4" ["good.mp4"] PyError.decodeError
      rfl false Checker.neuspell Checker.symspell idPipeline emptyQk).1

/-- C3: for an input directory with zero matching media files the per-file
loop body never runs, the keyword database is saved empty — but
`postprocess_transc` then executes `return PL_out["SBD_dir"]` with the loop
variable `PL_out` never assigned, so Python raises `UnboundLocalError`
instead of completing cleanly, for the standalone postprocess stage and for
the whole `transcribe_dir` pipeline alike. -/
theorem claim_C3_zero_files_unbound (pipeline : String → PLOut)
    (qk : String → String → Nat → Nat → KwTable) (basic : Bool)
    (c1 c2 : Checker) (tf : String → TranscOutcome) :
    (postprocess_transc pipeline qk []).kwdb = [] ∧
    (postprocess_transc pipeline qk []).result = .error PyError.unboundLocal ∧
    (transcribe_dir "facebook/wav2vec2-base-960h" basic (.ok c1) (.ok c2) tf
        [] pipeline qk).result = .error PyError.unboundLocal := by
  have hw : isWhisper "facebook/wav2vec2-base-960h" = false := by decide
  refine ⟨rfl, rfl, ?_⟩
  cases basic <;>
    simp [transcribe_dir, hw, acquireChecker, transcribeDirFileLoop,
      postprocess_transc, postprocessLoop]

/-- C6: the 65-second file at 30-second chunks yields 3 chunks, one
metadata row with `chunk_count = 3` and the word-count law — but the row's
total-duration field is `(3 * 30) / 60 = 1.5` minutes, not the source's
65 seconds ≈ 1.083 minutes: the code multiplies the chunk count by the full
chunk duration, overcounting the short last chunk, contradicting its own
comment that the field is "the duration of the video". -/
theorem claim_C6_duration_field :
    segment_chunk_count 65 30 = 3 ∧
    (resMetadata c6run).map MetadataRow.chunk_count = some 3 ∧
    (resMetadata c6run).map MetadataRow.duration_min = some ((3 : Rat) / 2) ∧
    (3 : Rat) / 2 ≠ 65 / 60 ∧
    (resMetadata c6run).map MetadataRow.word_count =
      (resMetadata c6run).map (fun r => (r.full_text.splitOn " ").length) := by
  refine ⟨rfl, rfl, ?_, by norm_num, rfl⟩
  show some (((3 * 30 : Nat) : Rat) / 60) = some ((3 : Rat) / 2)
  norm_num

/-- C7 counterexample: two runs of the inference loop on the same file with
the same deterministic decode stub, at clock readings five minutes apart —
the persisted transcripts are byte-identical but the metadata rows are not,
because the row embeds `get_timestamp()`. -/
theorem claim_C7_idempotence_counterexample :
    resText c7runA = resText c7runB ∧
    (resMetadata c7runA).map MetadataRow.timestamp = some "2023-01-01_00-00-00" ∧
    (resMetadata c7runB).map MetadataRow.timestamp = some "2023-01-01_00-05-00" ∧
    resMetadata c7runA ≠ resMetadata c7runB := by
  refine ⟨rfl, rfl, rfl, ?_⟩
  intro hEq
  have h2 : (resMetadata c7runA).map MetadataRow.timestamp =
      (resMetadata c7runB).map MetadataRow.timestamp := by rw [hEq]
  rw [show (resMetadata c7runA).map MetadataRow.timestamp =
        some "2023-01-01_00-00-00" from rfl,
      show (resMetadata c7runB).map MetadataRow.timestamp =
        some "2023-01-01_00-05-00" from rfl] at h2
  exact absurd (Option.some.inj h2) (by decide)

/-- C7 amended: re-running the inference loop on the same file with the
same deterministic decode stub yields a byte-identical Transcript, and a
MetadataRow identical in every field except the embedded timestamp; the
rows (and whole outcomes) coincide exactly when the two runs read the same
clock value. Holds for both decoding variants. -/
theorem claim_C7_idempotence_modulo_timestamp (m : ModelObj)
    (tokMask : String → Nat)
    (modelCall : String → Option Nat → Except PyError String)
    (generate : String → Except PyError String) (chunks : List String)
    (clip : String) (d : Nat) (ts1 ts2 : String) (corr : String → String) :
    resText (transcribe_video_wav2vec m tokMask modelCall chunks clip d ts1 corr)
      = resText (transcribe_video_wav2vec m tokMask modelCall chunks clip d ts2 corr) ∧
    (resMetadata (transcribe_video_wav2vec m tokMask modelCall chunks clip d ts1 corr)).map rowSansTimestamp
      = (resMetadata (transcribe_video_wav2vec m tokMask modelCall chunks clip d ts2 corr)).map rowSansTimestamp ∧
    resText (transcribe_video_whisper generate chunks clip d ts1 corr)
      = resText (transcribe_video_whisper generate chunks clip d ts2 corr) ∧
    (resMetadata (transcribe_video_whisper generate chunks clip d ts1 corr)).map rowSansTimestamp
      = (resMetadata (transcribe_video_whisper generate chunks clip d ts2 corr)).map rowSansTimestamp ∧
    (ts1 = ts2 →
      transcribe_video_wav2vec m tokMask modelCall chunks clip d ts1 corr
        = transcribe_video_wav2vec m tokMask modelCall chunks clip d ts2 corr) := by
  refine ⟨?_, ?_, ?_, ?_, ?_⟩
  · cases h : runChunksW2V tokMask modelCall (wav2vec2_islarge m) chunks <;>
      simp [transcribe_video_wav2vec, h, finishTranscription, resText]
  · cases h : runChunksW2V tokMask modelCall (wav2vec2_islarge m) chunks <;>
      simp [transcribe_video_wav2vec, h, finishTranscription, resMetadata,
        rowSansTimestamp, mkMetadataRow]
  · cases h : runChunksWhisper generate chunks <;>
      simp [transcribe_video_whisper, h, finishTranscription, resText]
  · cases h : runChunksWhisper generate chunks <;>
      simp [transcribe_video_whisper, h, finishTranscription, resMetadata,
        rowSansTimestamp, mkMetadataRow]
  · intro hts; rw [hts]

/-- C7 witness: the amended statement at the concrete single-chunk run,
with equal clock readings collapsing the two runs to equality. -/
theorem claim_C7_idempotence_modulo_timestamp_witness :
    transcribe_video_wav2vec baseModel (fun _ => 0) okModelCall ["c0.wav"]
        "clip.mp4" 30 "2023-01-01_00-00-00" id
      = transcribe_video_wav2vec baseModel (fun _ => 0) okModelCall ["c0.wav"]
        "clip.mp4" 30 "2023-01-01_00-00-00" id :=
  (claim_C7_idempotence_modulo_timestamp baseModel (fun _ => 0) okModelCall
      okGenerate ["c0.wav"] "clip.mp4" 30 "2023-01-01_00-00-00"
      "2023-01-01_00-00-00" id).2.2.2.2 rfl

/-- C9: over any list of transcript files, the keyword database is the
column-wise concatenation, in discovery order, of exactly one `quick_keys`
table per file, each extracted with the fixed arguments `num_kw=25` and
`max_ngrams=3`; its column-set count therefore equals the file count, and
the database is written exactly once, after the whole loop. -/
theorem claim_C9_keyword_database (pipeline : String → PLOut)
    (qk : String → String → Nat → Nat → KwTable) (txt_files : List String) :
    (postprocess_transc pipeline qk txt_files).kwdb =
      txt_files.map (fun f =>
        qk (pipeline f).spell_corrected_dir (pipeline f).sc_filename 25 3) ∧
    (postprocess_transc pipeline qk txt_files).kwdb.length = txt_files.length ∧
    (postprocess_transc pipeline qk txt_files).kwdbSaves = 1 := by
  have hfst := postprocessLoop_fst pipeline qk txt_files
  refine ⟨?_, ?_, rfl⟩
  · simpa [postprocess_transc] using hfst
  · simp [postprocess_transc, hfst]

end Vid2CleanTxt
